import Mathlib

/-!
Shallow embedding of the data-normalization loaders of `inputf.py` from the
beat repository, together with theorems about their behaviour.

Modelling choices:
* numeric values are rationals (`Rat`), so unit conversions are exact;
* the external readers (`scipy.io.loadmat`, `numpy.loadtxt`, `pyrocko.io.load`)
  are modelled as function parameters from file paths to optional parsed
  contents (`none` models the `IOError` that the source code catches), or as
  pre-parsed column tables;
* the coordinate projection `utility.utm_to_lonlat` is an abstract function
  parameter, since it is an external collaborator of the loaders;
* container types from the `heart` module (`GPSDataset`, `GPSStation`,
  `GPSComponent`, `Covariance`, `DiffIFG`) are not part of the source file;
  they are modelled from the specification, as marked in the doc comments.
-/

namespace Beat

/-- Conversion constant of inputf.py line 12: `km = 1000.`. -/
def km : Rat := 1000

/-- Conversion constant of inputf.py line 13: `m = 0.000000001` (nanometre to
metre factor). -/
def m : Rat := 0.000000001

/-! ### GPS data model -/

/-- Modelled from the spec: `heart.GPSComponent` — a component name (one letter
of the component alphabet), a velocity and a two-sigma uncertainty, both in
canonical units per year. -/
structure GPSComponent where
  name : String
  v : Rat
  twosigma : Rat
deriving DecidableEq, Inhabited

/-- Modelled from the spec: `heart.GPSStation` — identity name, coordinates in
decimal degrees, and an ordered-by-insertion collection of components. -/
structure GPSStation where
  name : String
  lon : Rat
  lat : Rat
  components : List GPSComponent := []
deriving DecidableEq, Inhabited

/-- Modelled from the spec: adding a component records it at the end of the
insertion order. -/
def GPSStation.add_component (s : GPSStation) (c : GPSComponent) : GPSStation :=
  { s with components := s.components ++ [c] }

/-- Modelled from the spec: the component alphabet of a station, in insertion
order. -/
def GPSStation.get_component_names (s : GPSStation) : List String :=
  s.components.map GPSComponent.name

/-- Modelled from the spec: `heart.GPSDataset` — owns the stations, keyed by
station name, in insertion order. -/
structure GPSDataset where
  stations : List GPSStation := []
deriving DecidableEq, Inhabited

/-- Modelled from the spec: adding a station records it at the end of the
insertion order. -/
def GPSDataset.add_station (ds : GPSDataset) (s : GPSStation) : GPSDataset :=
  { stations := ds.stations ++ [s] }

/-- Modelled from the spec: removing a set of stations by name; removing a
name that is not present is a no-op, not an error. -/
def GPSDataset.remove_stations (ds : GPSDataset) (blacklist : List String) : GPSDataset :=
  { stations := ds.stations.filter (fun s => s.name ∉ blacklist) }

/-- Modelled from the spec: the compound view for a given component name — the
cross-station collection of (station, component) pairs sharing that component
name, used as a modeling target. -/
def GPSDataset.get_compound (ds : GPSDataset) (c : String) : List (String × GPSComponent) :=
  ds.stations.filterMap
    (fun s => (s.components.find? (fun comp => comp.name == c)).map (fun comp => (s.name, comp)))

/-- Construction of one `GPSStation` from one table row
(inputf.py lines 89-99): longitude and latitude are numeric columns 0 and 1,
and for `j, comp in enumerate('ENU')` a component is added with velocity
column `j + 2` and uncertainty column `j + 5`, each divided by `km`. -/
def mkGPSStation (name : String) (row : List Rat) : GPSStation :=
  [(0, "E"), (1, "N"), (2, "U")].foldl
    (fun st jc => st.add_component
      { name := jc.2, v := row.getD (jc.1 + 2) 0 / km, twosigma := row.getD (jc.1 + 5) 0 / km })
    { name := name, lon := row.getD 0 0, lat := row.getD 1 0 }

/-- Embedding of `load_ascii_gps` (inputf.py lines 70-102).  The two `loadtxt`
calls are modelled by taking their results as inputs: `names` is the parsed
first column and `d` the parsed numeric block of 8 columns per row.  The
row-count guard of lines 85-86 raises when the two disagree; otherwise one
station per row is added to a fresh dataset. -/
def load_ascii_gps (names : List String) (d : List (List Rat)) : Except String GPSDataset :=
  if names.length ≠ d.length then
    Except.error "Number of stations and available data differs!"
  else
    Except.ok ((names.zip d).foldl (fun ds nr => ds.add_station (mkGPSStation nr.1 nr.2)) {})

/-- Embedding of `load_and_blacklist_GPS` (inputf.py lines 105-116): load the
dataset, remove the blacklisted stations, read the component alphabet off the
first remaining station (a `list index out of range` error when none remains),
and build one compound target per component name. -/
def load_and_blacklist_GPS (names : List String) (d : List (List Rat)) (blacklist : List String) :
    Except String (List (List (String × GPSComponent))) :=
  match load_ascii_gps names d with
  | Except.error e => Except.error e
  | Except.ok gps_ds =>
    let ds := gps_ds.remove_stations blacklist
    match ds.stations with
    | [] => Except.error "list index out of range"
    | s :: _ => Except.ok (s.get_component_names.map (fun c => ds.get_compound c))

/-! ### Helper lemmas for the GPS loaders -/

theorem GPSDataset.eq_of_stations {a b : GPSDataset} (h : a.stations = b.stations) : a = b := by
  cases a; cases b; simpa using h

theorem foldl_add_station (l : List (String × List Rat)) (ds : GPSDataset) :
    (l.foldl (fun acc nr => acc.add_station (mkGPSStation nr.1 nr.2)) ds).stations =
      ds.stations ++ l.map (fun nr => mkGPSStation nr.1 nr.2) := by
  induction l generalizing ds with
  | nil => simp
  | cons hd tl ih =>
    rw [List.foldl_cons, ih]
    simp [GPSDataset.add_station]

theorem load_ascii_gps_ok (names : List String) (d : List (List Rat))
    (hlen : names.length = d.length) :
    load_ascii_gps names d =
      Except.ok ⟨(names.zip d).map (fun nr => mkGPSStation nr.1 nr.2)⟩ := by
  unfold load_ascii_gps
  rw [if_neg (by omega)]
  exact congrArg Except.ok (GPSDataset.eq_of_stations (by simpa using foldl_add_station (names.zip d) {}))

theorem mkGPSStation_name (n : String) (row : List Rat) : (mkGPSStation n row).name = n := rfl

theorem mkGPSStation_components (n : String) (row : List Rat) :
    (mkGPSStation n row).components =
      [⟨"E", row.getD 2 0 / 1000, row.getD 5 0 / 1000⟩,
       ⟨"N", row.getD 3 0 / 1000, row.getD 6 0 / 1000⟩,
       ⟨"U", row.getD 4 0 / 1000, row.getD 7 0 / 1000⟩] := rfl

/-! ### Sample data used by the concrete witnesses -/

def sampleRow1 : List Rat := [1, 2, 3, 4, 5, 6, 7, 8]

def sampleRow2 : List Rat := [9, 10, 11, 12, 13, 14, 15, 16]

def sampleNames : List String := ["AA", "BB"]

def sampleRows : List (List Rat) := [sampleRow1, sampleRow2]

def sampleDS : GPSDataset := ⟨[mkGPSStation "AA" sampleRow1, mkGPSStation "BB" sampleRow2]⟩

/-! ### Claims about the GPS loaders -/

/-- Claim C1: for every well-formed station-velocity table with R rows of 9
columns, `load_ascii_gps` returns a dataset with exactly R stations; each
station has exactly the three components named E, N, U in that order, and each
component velocity and two-sigma uncertainty equals the corresponding raw
table value divided by 1000. -/
theorem c1_load_ascii_gps_rows (names : List String) (d : List (List Rat))
    (hlen : names.length = d.length) (_hrow : ∀ row ∈ d, row.length = 8) :
    ∃ ds, load_ascii_gps names d = Except.ok ds ∧
      ds.stations.length = names.length ∧
      ∀ i, i < names.length →
        (ds.stations.getD i default).name = names.getD i "" ∧
        (ds.stations.getD i default).components =
          [⟨"E", (d.getD i []).getD 2 0 / 1000, (d.getD i []).getD 5 0 / 1000⟩,
           ⟨"N", (d.getD i []).getD 3 0 / 1000, (d.getD i []).getD 6 0 / 1000⟩,
           ⟨"U", (d.getD i []).getD 4 0 / 1000, (d.getD i []).getD 7 0 / 1000⟩] := by
  refine ⟨_, load_ascii_gps_ok names d hlen, ?_, ?_⟩
  · simp [List.length_zip, hlen]
  · intro i hi
    have hid : i < d.length := by omega
    have hiz : i < ((names.zip d).map (fun nr => mkGPSStation nr.1 nr.2)).length := by
      simp [List.length_zip]; omega
    rw [show (GPSDataset.mk ((names.zip d).map (fun nr => mkGPSStation nr.1 nr.2))).stations =
      (names.zip d).map (fun nr => mkGPSStation nr.1 nr.2) from rfl]
    rw [List.getD_eq_getElem _ _ hiz, List.getD_eq_getElem _ _ hi, List.getD_eq_getElem _ _ hid]
    simp only [List.getElem_map, List.getElem_zip]
    exact ⟨mkGPSStation_name _ _, mkGPSStation_components _ _⟩

theorem c1_load_ascii_gps_rows_witness :
    sampleNames.length = sampleRows.length ∧
    (∀ row ∈ sampleRows, row.length = 8) ∧
    (∃ ds, load_ascii_gps sampleNames sampleRows = Except.ok ds ∧
      ds.stations.length = sampleNames.length ∧
      ∀ i, i < sampleNames.length →
        (ds.stations.getD i default).name = sampleNames.getD i "" ∧
        (ds.stations.getD i default).components =
          [⟨"E", (sampleRows.getD i []).getD 2 0 / 1000, (sampleRows.getD i []).getD 5 0 / 1000⟩,
           ⟨"N", (sampleRows.getD i []).getD 3 0 / 1000, (sampleRows.getD i []).getD 6 0 / 1000⟩,
           ⟨"U", (sampleRows.getD i []).getD 4 0 / 1000, (sampleRows.getD i []).getD 7 0 / 1000⟩]) :=
  ⟨by decide, by decide, c1_load_ascii_gps_rows sampleNames sampleRows (by decide) (by decide)⟩

/-- Claim C5: whenever the name column and the numeric block disagree in row
count, `load_ascii_gps` fails with the row-count mismatch error and no dataset
is produced. -/
theorem c5_row_count_mismatch (names : List String) (d : List (List Rat))
    (h : names.length ≠ d.length) :
    load_ascii_gps names d = Except.error "Number of stations and available data differs!" := by
  unfold load_ascii_gps
  rw [if_pos h]

theorem c5_row_count_mismatch_witness :
    sampleNames.length ≠ [sampleRow1].length ∧
    load_ascii_gps sampleNames [sampleRow1] =
      Except.error "Number of stations and available data differs!" :=
  ⟨by decide, c5_row_count_mismatch sampleNames [sampleRow1] (by decide)⟩

/-- Claim C6: `load_and_blacklist_GPS` loads the dataset, removes blacklisted
stations, reads the component alphabet off an arbitrary (the first) remaining
station and returns exactly one compound target per component name; when the
blacklist removes every station it fails with an empty-dataset error. -/
theorem c6_blacklist_targets (names : List String) (d : List (List Rat)) (blacklist : List String)
    (ds : GPSDataset) (hload : load_ascii_gps names d = Except.ok ds) :
    ((ds.remove_stations blacklist).stations = [] →
      load_and_blacklist_GPS names d blacklist = Except.error "list index out of range") ∧
    (∀ s rest, (ds.remove_stations blacklist).stations = s :: rest →
      load_and_blacklist_GPS names d blacklist =
        Except.ok (s.get_component_names.map
          (fun c => (ds.remove_stations blacklist).get_compound c)) ∧
      (s.get_component_names.map
          (fun c => (ds.remove_stations blacklist).get_compound c)).length =
        s.get_component_names.length) := by
  constructor
  · intro hemp
    unfold load_and_blacklist_GPS
    rw [hload]
    simp [hemp]
  · intro s rest hcons
    unfold load_and_blacklist_GPS
    rw [hload]
    simp [hcons]

theorem c6_blacklist_targets_witness :
    load_ascii_gps sampleNames sampleRows = Except.ok sampleDS ∧
    load_and_blacklist_GPS sampleNames sampleRows ["AA", "BB"] =
      Except.error "list index out of range" ∧
    load_and_blacklist_GPS sampleNames sampleRows ["AA"] =
      Except.ok (((mkGPSStation "BB" sampleRow2).get_component_names).map
        (fun c => (sampleDS.remove_stations ["AA"]).get_compound c)) :=
  ⟨rfl,
   (c6_blacklist_targets sampleNames sampleRows ["AA", "BB"] sampleDS rfl).1 rfl,
   ((c6_blacklist_targets sampleNames sampleRows ["AA"] sampleDS rfl).2
     (mkGPSStation "BB" sampleRow2) [] rfl).1⟩

/-! ### SAR (interferogram) data model -/

/-- Nested geometry field of the matrix-file contract: `lvQT` with sub-fields
`inci` and `head` (per-sample look-vector angles). -/
structure LvQT where
  inci : List Rat
  head : List Rat
deriving DecidableEq, Inhabited

/-- Matrix-file contract consumed by the SAR loader: named fields `cfoc`
(projected coordinate pairs), `lvQT` (geometry), `sqval` (displacement
samples) and `ODW_sub` (downweight column). -/
structure MatData where
  cfoc : List (Rat × Rat)
  lvQT : LvQT
  sqval : List Rat
  ODW_sub : List Rat
deriving DecidableEq, Inhabited

/-- Covariance-file contract consumed by the SAR loader: a named field `Cov`. -/
structure CovData where
  Cov : List (List Rat)
deriving DecidableEq, Inhabited

/-- Modelled from the spec: `heart.Covariance` wraps the covariance matrix of
an observation as its `data` field. -/
structure Covariance where
  data : List (List Rat)
deriving DecidableEq, Inhabited

/-- Modelled from the spec: `heart.DiffIFG` — an interferogram observation
record with identity, displacement, projected and geographic coordinates,
covariance, look geometry and downweight column. -/
structure DiffIFG where
  name : String
  displacement : List Rat
  utme : List Rat
  utmn : List Rat
  lons : List Rat
  lats : List Rat
  covariance : Covariance
  incidence : List Rat
  heading : List Rat
  odw : List Rat
deriving DecidableEq, Inhabited

/-- Abstract type of the external coordinate projection
`utility.utm_to_lonlat`: (eastings, northings, zone) to (longitudes,
latitudes), vectorized over sequences. -/
abbrev UTMConv := List Rat → List Rat → Int → List Rat × List Rat

/-- The two matrix-file readers seen by `load_SAR_data`, as functions from a
file path to the optionally parsed contents.  A `none` result models the
behaviour of `load_matfile` (inputf.py lines 16-21), which catches `IOError`
and returns `None`. -/
structure SARFiles where
  quad : String → Option MatData
  covm : String → Option CovData

/-- Path of the displacement companion file (inputf.py lines 34-37). -/
def quadPath (datadir k : String) : String := datadir ++ "quad_" ++ k ++ ".mat"

/-- Path of the covariance companion file (inputf.py lines 39-42). -/
def covPath (datadir k : String) : String := datadir ++ "CovMatrix_" ++ k ++ ".mat"

/-- The diagnostic emitted when an identifier's files fail to load
(inputf.py line 65). -/
def sarDiag (datadir : String) : String := "File " ++ datadir ++ " was no SAR data?!"

/-- Record construction of inputf.py lines 45-61: projected coordinates from
the two columns of `cfoc`, geographic coordinates via the UTM inverse
projection at the fixed zone constant 36, displacement from `sqval`,
geometry from `lvQT`, downweights from `ODW_sub`, and the covariance file's
`Cov` field wrapped as the covariance structure. -/
def mkDiffIFG (utm : UTMConv) (k : String) (d : MatData) (c : CovData) : DiffIFG :=
  let utmx := d.cfoc.map Prod.fst
  let utmy := d.cfoc.map Prod.snd
  let ll := utm utmx utmy 36
  { name := k, displacement := d.sqval, utme := utmx, utmn := utmy,
    lons := ll.1, lats := ll.2, covariance := { data := c.Cov },
    incidence := d.lvQT.inci, heading := d.lvQT.head, odw := d.ODW_sub }

/-- The loop of `load_SAR_data` (inputf.py lines 31-66).  Python's
`for k in names` iterates by index over the live list, and the loop body pops
the front of that same list after each successful load, so the loop is
modelled with an explicit index `i` and the current list `names`; a successful
iteration continues at `i + 1` on `names.tail`, a failed one continues at
`i + 1` on the unchanged list with a diagnostic recorded.  The returned triple
is (constructed records, final state of the identifier list, diagnostics).
The first argument is fuel for the recursion; every iteration strictly
decreases `names.length - i`, so `names.length` fuel makes the iteration stop
exactly when `i` reaches the current length, as in Python. -/
def sarLoopF (utm : UTMConv) (fs : SARFiles) (datadir : String) :
    Nat → Nat → List String → List DiffIFG × List String × List String
  | 0, _, names => ([], names, [])
  | fuel + 1, i, names =>
    if h : i < names.length then
      match fs.quad (quadPath datadir (names.get ⟨i, h⟩)),
            fs.covm (covPath datadir (names.get ⟨i, h⟩)) with
      | some d, some c =>
        let r := sarLoopF utm fs datadir fuel (i + 1) names.tail
        (mkDiffIFG utm (names.get ⟨i, h⟩) d c :: r.1, r.2.1, r.2.2)
      | _, _ =>
        let r := sarLoopF utm fs datadir fuel (i + 1) names
        (r.1, r.2.1, sarDiag datadir :: r.2.2)
    else ([], names, [])

/-- Embedding of `load_SAR_data` (inputf.py lines 24-67): run the loop from
index 0 on the caller's identifier list. -/
def load_SAR_data (utm : UTMConv) (fs : SARFiles) (datadir : String) (names : List String) :
    List DiffIFG × List String × List String :=
  sarLoopF utm fs datadir names.length 0 names

/-- The elements at even positions (0, 2, 4, ...) of a list. -/
def evenEntries {α : Type} : List α → List α
  | [] => []
  | [a] => [a]
  | a :: _ :: rest => a :: evenEntries rest

/-! ### Helper lemmas for the SAR loader -/

theorem sarLoopF_stop (utm : UTMConv) (fs : SARFiles) (dir : String) (fuel i : Nat)
    (names : List String) (h : ¬ i < names.length) :
    sarLoopF utm fs dir fuel i names = ([], names, []) := by
  cases fuel <;> simp [sarLoopF, h]

theorem sarLoopF_success (utm : UTMConv) (fs : SARFiles) (dir : String) (fuel i : Nat)
    (names : List String) (h : i < names.length) (d : MatData) (c : CovData)
    (hq : fs.quad (quadPath dir (names.get ⟨i, h⟩)) = some d)
    (hc : fs.covm (covPath dir (names.get ⟨i, h⟩)) = some c) :
    sarLoopF utm fs dir (fuel + 1) i names =
      (mkDiffIFG utm (names.get ⟨i, h⟩) d c :: (sarLoopF utm fs dir fuel (i + 1) names.tail).1,
       (sarLoopF utm fs dir fuel (i + 1) names.tail).2.1,
       (sarLoopF utm fs dir fuel (i + 1) names.tail).2.2) := by
  have hq' : fs.quad (quadPath dir names[i]) = some d := hq
  have hc' : fs.covm (covPath dir names[i]) = some c := hc
  simp [sarLoopF, h, hq', hc']

theorem sarLoopF_fail (utm : UTMConv) (fs : SARFiles) (dir : String) (fuel i : Nat)
    (names : List String) (h : i < names.length)
    (hfail : fs.quad (quadPath dir (names.get ⟨i, h⟩)) = none ∨
             fs.covm (covPath dir (names.get ⟨i, h⟩)) = none) :
    sarLoopF utm fs dir (fuel + 1) i names =
      ((sarLoopF utm fs dir fuel (i + 1) names).1,
       (sarLoopF utm fs dir fuel (i + 1) names).2.1,
       sarDiag dir :: (sarLoopF utm fs dir fuel (i + 1) names).2.2) := by
  rcases hfail with hq | hc
  · have hq' : fs.quad (quadPath dir names[i]) = none := hq
    simp [sarLoopF, h, hq']
  · have hc' : fs.covm (covPath dir names[i]) = none := hc
    cases hq : fs.quad (quadPath dir names[i]) <;> simp [sarLoopF, h, hq, hc']

theorem sarLoopF_names (utm : UTMConv) (fs : SARFiles) (dir : String) :
    ∀ fuel i (names : List String),
      (sarLoopF utm fs dir fuel i names).2.1 =
        names.drop (sarLoopF utm fs dir fuel i names).1.length := by
  intro fuel
  induction fuel with
  | zero => intro i names; simp [sarLoopF]
  | succ fuel ih =>
    intro i names
    by_cases h : i < names.length
    · cases hq : fs.quad (quadPath dir (names.get ⟨i, h⟩)) with
      | none =>
        rw [sarLoopF_fail utm fs dir fuel i names h (Or.inl hq)]
        exact ih (i + 1) names
      | some d =>
        cases hc : fs.covm (covPath dir (names.get ⟨i, h⟩)) with
        | none =>
          rw [sarLoopF_fail utm fs dir fuel i names h (Or.inr hc)]
          exact ih (i + 1) names
        | some c =>
          rw [sarLoopF_success utm fs dir fuel i names h d c hq hc]
          show (sarLoopF utm fs dir fuel (i + 1) names.tail).2.1 =
            names.drop ((sarLoopF utm fs dir fuel (i + 1) names.tail).1.length + 1)
          rw [ih (i + 1) names.tail, ← List.drop_one, List.drop_drop]
          congr 1
          omega
    · rw [sarLoopF_stop utm fs dir (fuel + 1) i names h]
      simp

theorem sarLoopF_mem (utm : UTMConv) (fs : SARFiles) (dir : String) :
    ∀ fuel i (names : List String) r, r ∈ (sarLoopF utm fs dir fuel i names).1 →
      ∃ k d c, k ∈ names ∧ fs.quad (quadPath dir k) = some d ∧
        fs.covm (covPath dir k) = some c ∧ r = mkDiffIFG utm k d c := by
  intro fuel
  induction fuel with
  | zero => intro i names r hr; simp [sarLoopF] at hr
  | succ fuel ih =>
    intro i names r hr
    by_cases h : i < names.length
    · cases hq : fs.quad (quadPath dir (names.get ⟨i, h⟩)) with
      | none =>
        rw [sarLoopF_fail utm fs dir fuel i names h (Or.inl hq)] at hr
        exact ih (i + 1) names r hr
      | some d =>
        cases hc : fs.covm (covPath dir (names.get ⟨i, h⟩)) with
        | none =>
          rw [sarLoopF_fail utm fs dir fuel i names h (Or.inr hc)] at hr
          exact ih (i + 1) names r hr
        | some c =>
          rw [sarLoopF_success utm fs dir fuel i names h d c hq hc] at hr
          rcases List.mem_cons.mp hr with h1 | h2
          · exact ⟨names.get ⟨i, h⟩, d, c, List.get_mem names i h, hq, hc, h1⟩
          · obtain ⟨k, d', c', hk, hkq, hkc, hr'⟩ := ih (i + 1) names.tail r h2
            exact ⟨k, d', c', List.mem_of_mem_tail hk, hkq, hkc, hr'⟩
    · rw [sarLoopF_stop utm fs dir (fuel + 1) i names h] at hr
      simp at hr

theorem evenEntries_cons {α : Type} (a : α) (l : List α) :
    evenEntries (a :: l) = a :: evenEntries l.tail := by
  cases l <;> rfl

theorem evenEntries_length {α : Type} : ∀ l : List α, (evenEntries l).length = (l.length + 1) / 2
  | [] => by simp [evenEntries]
  | [_] => by simp [evenEntries]
  | _ :: _ :: rest => by
    have h := evenEntries_length rest
    simp [evenEntries, h]
    omega

theorem evenEntries_getD {α : Type} (dflt : α) :
    ∀ (l : List α) (j : Nat), 2 * j < l.length →
      (evenEntries l).getD j dflt = l.getD (2 * j) dflt
  | [], j, h => by simp at h
  | [a], j, h => by
    have hj : j = 0 := by simp at h; omega
    subst hj
    rfl
  | a :: b :: rest, j, h => by
    cases j with
    | zero => rfl
    | succ j =>
      have hh : 2 * j < rest.length := by
        simp only [List.length_cons] at h
        omega
      have hrec := evenEntries_getD dflt rest j hh
      rw [show 2 * (j + 1) = 2 * j + 1 + 1 by ring]
      simp only [evenEntries, List.getD_cons_succ]
      exact hrec

theorem sarLoopF_all_success (utm : UTMConv) (fs : SARFiles) (dir : String) :
    ∀ fuel i (names : List String), names.length - i ≤ fuel →
      (∀ k ∈ names, (fs.quad (quadPath dir k)).isSome ∧ (fs.covm (covPath dir k)).isSome) →
      (sarLoopF utm fs dir fuel i names).1.map DiffIFG.name = evenEntries (names.drop i) := by
  intro fuel
  induction fuel with
  | zero =>
    intro i names hb _hall
    have hle : names.length ≤ i := by omega
    rw [List.drop_eq_nil_of_le hle]
    simp [sarLoopF, evenEntries]
  | succ fuel ih =>
    intro i names hb hall
    by_cases h : i < names.length
    · have hkmem : names.get ⟨i, h⟩ ∈ names := List.get_mem names i h
      obtain ⟨hq1, hc1⟩ := hall _ hkmem
      obtain ⟨d, hq⟩ := Option.isSome_iff_exists.mp hq1
      obtain ⟨c, hc⟩ := Option.isSome_iff_exists.mp hc1
      rw [sarLoopF_success utm fs dir fuel i names h d c hq hc]
      rw [show (mkDiffIFG utm (names.get ⟨i, h⟩) d c ::
            (sarLoopF utm fs dir fuel (i + 1) names.tail).1).map DiffIFG.name =
          names.get ⟨i, h⟩ ::
            (sarLoopF utm fs dir fuel (i + 1) names.tail).1.map DiffIFG.name from rfl]
      rw [ih (i + 1) names.tail (by simp [List.length_tail]; omega)
        (fun x hx => hall x (List.mem_of_mem_tail hx))]
      have htail2 : names.tail.drop (i + 1) = names.drop (i + 1 + 1) := by
        rw [← List.drop_one, List.drop_drop]
        congr 1
        omega
      rw [List.drop_eq_getElem_cons h, evenEntries_cons, List.tail_drop, ← htail2]
      rfl
    · rw [sarLoopF_stop utm fs dir (fuel + 1) i names h]
      rw [List.drop_eq_nil_of_le (by omega)]
      simp [evenEntries]

/-! ### Sample SAR data used by the concrete witnesses -/

def utmSample : UTMConv := fun x y _ => (x, y)

def sampleMat : MatData := ⟨[(1, 2)], ⟨[3], [4]⟩, [5], [6]⟩

def sampleCov : CovData := ⟨[[7]]⟩

def fsAll : SARFiles := ⟨fun _ => some sampleMat, fun _ => some sampleCov⟩

def fsNone : SARFiles := ⟨fun _ => none, fun _ => none⟩

def fsAB : SARFiles :=
  ⟨fun _ => some sampleMat, fun p => if p = covPath "" "A" then some sampleCov else none⟩

/-! ### Claims about the SAR loader -/

/-- Claim C2: a reading failure of either companion file of an attempted
identifier is non-fatal — no record is constructed for it, a diagnostic is
emitted, and the loop continues at the next position with the identifier list
unchanged; in particular, for identifiers [A, B] where all of A's files are
present and B's covariance file is absent, the result holds exactly one
observation, for A. -/
theorem c2_read_failure_nonfatal :
    (∀ (utm : UTMConv) (fs : SARFiles) (dir : String) (fuel i : Nat) (names : List String)
       (h : i < names.length),
       (fs.quad (quadPath dir (names.get ⟨i, h⟩)) = none ∨
        fs.covm (covPath dir (names.get ⟨i, h⟩)) = none) →
       sarLoopF utm fs dir (fuel + 1) i names =
         ((sarLoopF utm fs dir fuel (i + 1) names).1,
          (sarLoopF utm fs dir fuel (i + 1) names).2.1,
          sarDiag dir :: (sarLoopF utm fs dir fuel (i + 1) names).2.2)) ∧
    (∀ (utm : UTMConv) (fs : SARFiles) (dir : String) (dA : MatData) (cA : CovData),
       fs.quad (quadPath dir "A") = some dA →
       fs.covm (covPath dir "A") = some cA →
       fs.covm (covPath dir "B") = none →
       (load_SAR_data utm fs dir ["A", "B"]).1.map DiffIFG.name = ["A"]) := by
  constructor
  · intro utm fs dir fuel i names h hfail
    exact sarLoopF_fail utm fs dir fuel i names h hfail
  · intro utm fs dir dA cA hA1 hA2 _hB
    unfold load_SAR_data
    rw [show (["A", "B"] : List String).length = 2 from rfl]
    rw [sarLoopF_success utm fs dir 1 0 ["A", "B"] (by simp) dA cA hA1 hA2]
    rw [sarLoopF_stop utm fs dir 1 1 (["A", "B"] : List String).tail (by simp)]
    rfl

theorem c2_read_failure_nonfatal_witness :
    fsAB.quad (quadPath "" "A") = some sampleMat ∧
    fsAB.covm (covPath "" "A") = some sampleCov ∧
    fsAB.covm (covPath "" "B") = none ∧
    (0 : Nat) < (["B"] : List String).length ∧
    sarLoopF utmSample fsAB "" 1 0 ["B"] =
      ((sarLoopF utmSample fsAB "" 0 1 ["B"]).1,
       (sarLoopF utmSample fsAB "" 0 1 ["B"]).2.1,
       sarDiag "" :: (sarLoopF utmSample fsAB "" 0 1 ["B"]).2.2) ∧
    (load_SAR_data utmSample fsAB "" ["A", "B"]).1.map DiffIFG.name = ["A"] :=
  ⟨by decide, by decide, by decide, by decide,
   c2_read_failure_nonfatal.1 utmSample fsAB "" 0 0 ["B"] (by decide) (Or.inr (by decide)),
   c2_read_failure_nonfatal.2 utmSample fsAB "" sampleMat sampleCov (by decide) (by decide)
     (by decide)⟩

/-- Claim C3: an attempted identifier yields a record exactly when both
companion files load; the record takes its projected coordinates from the two
columns of `cfoc`, longitude/latitude via the UTM inverse projection at the
fixed zone constant 36, displacement from `sqval`, incidence and heading from
the nested `lvQT` field, the downweight column from `ODW_sub`, and wraps the
covariance file's `Cov` matrix; moreover every record in the result comes from
an identifier whose two companion files both loaded. -/
theorem c3_record_iff_both_load :
    (∀ (utm : UTMConv) (fs : SARFiles) (dir : String) (fuel i : Nat) (names : List String)
       (h : i < names.length) (d : MatData) (c : CovData),
       fs.quad (quadPath dir (names.get ⟨i, h⟩)) = some d →
       fs.covm (covPath dir (names.get ⟨i, h⟩)) = some c →
       (sarLoopF utm fs dir (fuel + 1) i names).1 =
         { name := names.get ⟨i, h⟩,
           displacement := d.sqval,
           utme := d.cfoc.map Prod.fst,
           utmn := d.cfoc.map Prod.snd,
           lons := (utm (d.cfoc.map Prod.fst) (d.cfoc.map Prod.snd) 36).1,
           lats := (utm (d.cfoc.map Prod.fst) (d.cfoc.map Prod.snd) 36).2,
           covariance := { data := c.Cov },
           incidence := d.lvQT.inci,
           heading := d.lvQT.head,
           odw := d.ODW_sub } :: (sarLoopF utm fs dir fuel (i + 1) names.tail).1) ∧
    (∀ (utm : UTMConv) (fs : SARFiles) (dir : String) (fuel i : Nat) (names : List String)
       (h : i < names.length),
       (fs.quad (quadPath dir (names.get ⟨i, h⟩)) = none ∨
        fs.covm (covPath dir (names.get ⟨i, h⟩)) = none) →
       (sarLoopF utm fs dir (fuel + 1) i names).1 =
         (sarLoopF utm fs dir fuel (i + 1) names).1) ∧
    (∀ (utm : UTMConv) (fs : SARFiles) (dir : String) (names : List String) r,
       r ∈ (load_SAR_data utm fs dir names).1 →
       ∃ k d c, k ∈ names ∧ fs.quad (quadPath dir k) = some d ∧
         fs.covm (covPath dir k) = some c ∧ r = mkDiffIFG utm k d c) := by
  refine ⟨?_, ?_, ?_⟩
  · intro utm fs dir fuel i names h d c hq hc
    rw [sarLoopF_success utm fs dir fuel i names h d c hq hc]
    rfl
  · intro utm fs dir fuel i names h hfail
    rw [sarLoopF_fail utm fs dir fuel i names h hfail]
  · intro utm fs dir names r hr
    exact sarLoopF_mem utm fs dir names.length 0 names r hr

theorem c3_record_iff_both_load_witness :
    fsAll.quad (quadPath "" "a") = some sampleMat ∧
    fsAll.covm (covPath "" "a") = some sampleCov ∧
    fsNone.quad (quadPath "" "a") = none ∧
    (sarLoopF utmSample fsAll "" 1 0 ["a"]).1 =
      { name := "a",
        displacement := sampleMat.sqval,
        utme := sampleMat.cfoc.map Prod.fst,
        utmn := sampleMat.cfoc.map Prod.snd,
        lons := (utmSample (sampleMat.cfoc.map Prod.fst) (sampleMat.cfoc.map Prod.snd) 36).1,
        lats := (utmSample (sampleMat.cfoc.map Prod.fst) (sampleMat.cfoc.map Prod.snd) 36).2,
        covariance := { data := sampleCov.Cov },
        incidence := sampleMat.lvQT.inci,
        heading := sampleMat.lvQT.head,
        odw := sampleMat.ODW_sub } :: (sarLoopF utmSample fsAll "" 0 1 ([] : List String)).1 ∧
    (sarLoopF utmSample fsNone "" 1 0 ["a"]).1 =
      (sarLoopF utmSample fsNone "" 0 1 ["a"]).1 :=
  ⟨by decide, by decide, by decide,
   c3_record_iff_both_load.1 utmSample fsAll "" 0 0 ["a"] (by decide) sampleMat sampleCov
     (by decide) (by decide),
   c3_record_iff_both_load.2.1 utmSample fsNone "" 0 0 ["a"] (by decide) (Or.inl (by decide))⟩

/-- Claim C4: `load_SAR_data` mutates the caller's identifier list by removing
its first element once per successful load (so the final list is the initial
one with as many front elements dropped as there are constructed records);
when no load succeeds the list is unchanged. -/
theorem c4_names_mutation (utm : UTMConv) (fs : SARFiles) (dir : String) (names : List String) :
    (load_SAR_data utm fs dir names).2.1 =
      names.drop (load_SAR_data utm fs dir names).1.length ∧
    ((load_SAR_data utm fs dir names).1 = [] →
      (load_SAR_data utm fs dir names).2.1 = names) := by
  unfold load_SAR_data
  refine ⟨sarLoopF_names utm fs dir names.length 0 names, ?_⟩
  intro hemp
  rw [sarLoopF_names utm fs dir names.length 0 names, hemp]
  simp

theorem c4_names_mutation_witness :
    ((load_SAR_data utmSample fsNone "" ["a", "b"]).2.1 =
      (["a", "b"] : List String).drop (load_SAR_data utmSample fsNone "" ["a", "b"]).1.length) ∧
    (load_SAR_data utmSample fsNone "" ["a", "b"]).1 = [] ∧
    (load_SAR_data utmSample fsNone "" ["a", "b"]).2.1 = ["a", "b"] ∧
    ((load_SAR_data utmSample fsAll "" ["a", "b"]).2.1 =
      (["a", "b"] : List String).drop (load_SAR_data utmSample fsAll "" ["a", "b"]).1.length) :=
  ⟨(c4_names_mutation utmSample fsNone "" ["a", "b"]).1, by decide,
   (c4_names_mutation utmSample fsNone "" ["a", "b"]).2 (by decide),
   (c4_names_mutation utmSample fsAll "" ["a", "b"]).1⟩

/-- Claim C10: when every companion file pair of the supplied identifiers is
present and parseable, the result of `load_SAR_data` holds observations
exactly for the identifiers at even original positions (0, 2, 4, ...), that
is ceil(n/2) observations rather than n, because removing the front of the
list after each successful load advances the iteration past the following
identifier. -/
theorem c10_even_positions_only (utm : UTMConv) (fs : SARFiles) (dir : String)
    (names : List String)
    (hall : ∀ k ∈ names, (fs.quad (quadPath dir k)).isSome ∧
      (fs.covm (covPath dir k)).isSome) :
    (load_SAR_data utm fs dir names).1.map DiffIFG.name = evenEntries names ∧
    (load_SAR_data utm fs dir names).1.length = (names.length + 1) / 2 ∧
    (∀ j, 2 * j < names.length →
      ((load_SAR_data utm fs dir names).1.map DiffIFG.name).getD j "" =
        names.getD (2 * j) "") := by
  unfold load_SAR_data
  have h1 := sarLoopF_all_success utm fs dir names.length 0 names (by omega) hall
  rw [List.drop_zero] at h1
  refine ⟨h1, ?_, ?_⟩
  · have h2 := congrArg List.length h1
    rw [List.length_map, evenEntries_length] at h2
    exact h2
  · intro j hj
    rw [h1]
    exact evenEntries_getD "" names j hj

theorem c10_even_positions_only_witness :
    (∀ k ∈ (["a", "b", "c"] : List String),
      (fsAll.quad (quadPath "" k)).isSome ∧ (fsAll.covm (covPath "" k)).isSome) ∧
    (load_SAR_data utmSample fsAll "" ["a", "b", "c"]).1.map DiffIFG.name =
      evenEntries ["a", "b", "c"] ∧
    (load_SAR_data utmSample fsAll "" ["a", "b", "c"]).1.length = 2 :=
  ⟨by decide,
   (c10_even_positions_only utmSample fsAll "" ["a", "b", "c"] (by decide)).1,
   (c10_even_positions_only utmSample fsAll "" ["a", "b", "c"] (by decide)).2.1⟩

/-! ### Waveform trace loader -/

/-- Separator constant of inputf.py line 132. -/
def trc_name_divider : String := "-"

/-- Format constant of inputf.py line 133. -/
def data_format : String := "mseed"

/-- Station metadata consumed by `load_data_traces`: network and station
identity of a `pyrocko` station record. -/
structure SeisStation where
  network : String
  station : String
deriving DecidableEq, Inhabited

/-- A waveform trace: its ordered amplitude samples. -/
structure SeisTrace where
  ydata : List Rat
deriving DecidableEq, Inhabited

/-- Channel mapping of inputf.py lines 136-142: `Z` maps to the reference
channel `u`, `T` to `r`, and any other code raises. -/
def refChannel (cha : String) : Except String String :=
  if cha = "Z" then Except.ok "u"
  else if cha = "T" then Except.ok "r"
  else Except.error "No data for this channel!"

/-- The loop of inputf.py lines 135-142 building the reference-channel list,
propagating the exception raised at the first unmapped code. -/
def mapChannels : List String → Except String (List String)
  | [] => Except.ok []
  | cha :: rest =>
    match refChannel cha, mapChannels rest with
    | Except.ok r, Except.ok rs => Except.ok (r :: rs)
    | Except.error e, _ => Except.error e
    | _, Except.error e => Except.error e

/-- Trace file name of inputf.py lines 150-151: the literal `reference`, the
network, the station and the mapped channel code joined by the divider. -/
def trace_name (st : SeisStation) (rc : String) : String :=
  String.intercalate trc_name_divider ["reference", st.network, st.station, rc]

/-- Trace file path of inputf.py line 153. -/
def tracepath (datadir : String) (st : SeisStation) (rc : String) : String :=
  datadir ++ trace_name st rc ++ "." ++ data_format

/-- The diagnostic of inputf.py line 162 for a file that cannot be opened. -/
def traceDiag (st : SeisStation) (rc : String) : String :=
  "Unable to open file: " ++ trace_name st rc

/-- Inner (station) loop of inputf.py lines 149-162: for each station, try to
open the trace file (`trc` is the reader: `none` models the caught `IOError`);
on success rescale every amplitude sample by the nanometre-to-metre factor `m`
and append the trace, otherwise record a diagnostic and continue. -/
def loadStationTraces (trc : String → Option SeisTrace) (datadir : String) (rc : String) :
    List SeisStation → List SeisTrace × List String
  | [] => ([], [])
  | st :: rest =>
    let r := loadStationTraces trc datadir rc rest
    match trc (tracepath datadir st rc) with
    | some tr => (⟨tr.ydata.map (fun y => y * m)⟩ :: r.1, r.2)
    | none => (r.1, traceDiag st rc :: r.2)

/-- Outer (channel) loop of inputf.py line 148: channel-major iteration over
the mapped reference channels. -/
def loadChannelTraces (trc : String → Option SeisTrace) (datadir : String)
    (stations : List SeisStation) : List String → List SeisTrace × List String
  | [] => ([], [])
  | rc :: rest =>
    let a := loadStationTraces trc datadir rc stations
    let b := loadChannelTraces trc datadir stations rest
    (a.1 ++ b.1, a.2 ++ b.2)

/-- Embedding of `load_data_traces` (inputf.py lines 128-164): map the
requested channel codes (raising on an unsupported code before any file is
touched), then load the traces channel-major, station-minor.  The result also
carries the diagnostics for skipped files. -/
def load_data_traces (trc : String → Option SeisTrace) (datadir : String)
    (stations : List SeisStation) (channels : List String) :
    Except String (List SeisTrace × List String) :=
  match mapChannels channels with
  | Except.error e => Except.error e
  | Except.ok rcs => Except.ok (loadChannelTraces trc datadir stations rcs)

/-! ### Helper lemmas for the waveform loader -/

theorem mapChannels_error_of_bad (bad : String) (hZ : bad ≠ "Z") (hT : bad ≠ "T") :
    ∀ channels : List String, bad ∈ channels →
      mapChannels channels = Except.error "No data for this channel!"
  | [], h => by simp at h
  | cha :: rest, h => by
    rcases List.mem_cons.mp h with h1 | h2
    · subst h1
      unfold mapChannels refChannel
      rw [if_neg hZ, if_neg hT]
      cases mapChannels rest <;> rfl
    · have hrec := mapChannels_error_of_bad bad hZ hT rest h2
      unfold mapChannels
      rw [hrec]
      unfold refChannel
      by_cases hz : cha = "Z"
      · rw [if_pos hz]
      · rw [if_neg hz]
        by_cases ht : cha = "T"
        · rw [if_pos ht]
        · rw [if_neg ht]

theorem loadStationTraces_eq (trc : String → Option SeisTrace) (datadir : String) (rc : String) :
    ∀ stations : List SeisStation,
      loadStationTraces trc datadir rc stations =
        (stations.filterMap (fun st => (trc (tracepath datadir st rc)).map
           (fun tr => ⟨tr.ydata.map (fun y => y * m)⟩)),
         (stations.filter (fun st => (trc (tracepath datadir st rc)).isNone)).map
           (fun st => traceDiag st rc))
  | [] => rfl
  | st :: rest => by
    have ih := loadStationTraces_eq trc datadir rc rest
    unfold loadStationTraces
    rw [ih]
    cases hf : trc (tracepath datadir st rc) <;>
      simp [List.filterMap_cons, List.filter_cons, hf]

theorem loadChannelTraces_eq (trc : String → Option SeisTrace) (datadir : String)
    (stations : List SeisStation) :
    ∀ rcs : List String,
      loadChannelTraces trc datadir stations rcs =
        (rcs.flatMap (fun rc => stations.filterMap (fun st => (trc (tracepath datadir st rc)).map
           (fun tr => ⟨tr.ydata.map (fun y => y * m)⟩))),
         rcs.flatMap (fun rc =>
           (stations.filter (fun st => (trc (tracepath datadir st rc)).isNone)).map
             (fun st => traceDiag st rc)))
  | [] => rfl
  | rc :: rest => by
    have ih := loadChannelTraces_eq trc datadir stations rest
    unfold loadChannelTraces
    rw [ih, loadStationTraces_eq]
    simp

/-! ### Sample waveform data used by the concrete witnesses -/

def sampleSt1 : SeisStation := ⟨"N1", "S1"⟩

def sampleSt2 : SeisStation := ⟨"N2", "S2"⟩

/-- A sample trace reader for which exactly one file (station 1, channel u)
cannot be opened. -/
def sampleTrc : String → Option SeisTrace :=
  fun p => if p = tracepath "" sampleSt1 "u" then none else some ⟨[1]⟩

/-- A sample trace reader for which every file opens, with samples 2 and 3. -/
def sampleTrcAll : String → Option SeisTrace := fun _ => some ⟨[2, 3]⟩

/-! ### Claims about the waveform loader -/

/-- Claim C7: each requested channel code maps to exactly one reference
channel via the closed table Z to u and T to r; any other requested code
(such as X) makes `load_data_traces` fail with the unsupported-channel error
for every possible filesystem, hence before any filesystem access. -/
theorem c7_channel_mapping :
    refChannel "Z" = Except.ok "u" ∧
    refChannel "T" = Except.ok "r" ∧
    (∀ cha, cha ≠ "Z" → cha ≠ "T" →
      refChannel cha = Except.error "No data for this channel!") ∧
    (∀ (datadir : String) (stations : List SeisStation) (channels : List String),
      "X" ∈ channels →
      ∀ trc : String → Option SeisTrace,
        load_data_traces trc datadir stations channels =
          Except.error "No data for this channel!") := by
  refine ⟨rfl, rfl, ?_, ?_⟩
  · intro cha hZ hT
    unfold refChannel
    rw [if_neg hZ, if_neg hT]
  · intro datadir stations channels hmem trc
    unfold load_data_traces
    rw [mapChannels_error_of_bad "X" (by decide) (by decide) channels hmem]

theorem c7_channel_mapping_witness :
    ("X" : String) ∈ (["Z", "X"] : List String) ∧
    ("X" : String) ≠ "Z" ∧ ("X" : String) ≠ "T" ∧
    refChannel "X" = Except.error "No data for this channel!" ∧
    load_data_traces (fun _ => none) "" [⟨"NW", "ST"⟩] ["Z", "X"] =
      Except.error "No data for this channel!" :=
  ⟨by decide, by decide, by decide,
   c7_channel_mapping.2.2.1 "X" (by decide) (by decide),
   c7_channel_mapping.2.2.2 "" [⟨"NW", "ST"⟩] ["Z", "X"] (by decide) (fun _ => none)⟩

/-- Claim C8: `load_data_traces` iterates channel-major then station-minor and
the returned traces are exactly, and in exactly the order of, the successfully
opened files of that iteration; files that cannot be opened contribute a
diagnostic and do not disturb the order of the remaining traces. -/
theorem c8_iteration_order (trc : String → Option SeisTrace) (datadir : String)
    (stations : List SeisStation) (channels : List String) (rcs : List String)
    (h : mapChannels channels = Except.ok rcs) :
    load_data_traces trc datadir stations channels =
      Except.ok
        (rcs.flatMap (fun rc => stations.filterMap (fun st =>
           (trc (tracepath datadir st rc)).map
             (fun tr => ⟨tr.ydata.map (fun y => y * m)⟩))),
         rcs.flatMap (fun rc =>
           (stations.filter (fun st => (trc (tracepath datadir st rc)).isNone)).map
             (fun st => traceDiag st rc))) := by
  unfold load_data_traces
  rw [h]
  exact congrArg Except.ok (loadChannelTraces_eq trc datadir stations rcs)

theorem c8_iteration_order_witness :
    mapChannels ["Z", "T"] = Except.ok ["u", "r"] ∧
    load_data_traces sampleTrc "" [sampleSt1, sampleSt2] ["Z", "T"] =
      Except.ok
        ((["u", "r"] : List String).flatMap (fun rc =>
           ([sampleSt1, sampleSt2] : List SeisStation).filterMap (fun st =>
             (sampleTrc (tracepath "" st rc)).map
               (fun tr => ⟨tr.ydata.map (fun y => y * m)⟩))),
         (["u", "r"] : List String).flatMap (fun rc =>
           (([sampleSt1, sampleSt2] : List SeisStation).filter (fun st =>
             (sampleTrc (tracepath "" st rc)).isNone)).map
             (fun st => traceDiag st rc))) :=
  ⟨rfl,
   c8_iteration_order sampleTrc "" [sampleSt1, sampleSt2] ["Z", "T"] ["u", "r"] rfl⟩

/-- Claim C9: every amplitude sample of every returned trace is the raw stored
sample multiplied by exactly 1e-9, the nanometre-to-metre factor. -/
theorem c9_amplitude_scale (trc : String → Option SeisTrace) (datadir : String)
    (stations : List SeisStation) (channels : List String)
    (out : List SeisTrace × List String)
    (h : load_data_traces trc datadir stations channels = Except.ok out) :
    ∀ t ∈ out.1, ∃ raw path, trc path = some raw ∧
      t.ydata = raw.ydata.map (fun y => y * (1 / 1000000000)) := by
  intro t ht
  obtain ⟨rcs, hrcs⟩ : ∃ rcs, mapChannels channels = Except.ok rcs := by
    unfold load_data_traces at h
    cases hm : mapChannels channels with
    | error e => rw [hm] at h; exact absurd h (by simp)
    | ok rcs => exact ⟨rcs, rfl⟩
  have hout : loadChannelTraces trc datadir stations rcs = out := by
    unfold load_data_traces at h
    rw [hrcs] at h
    exact Except.ok.inj h
  rw [← hout, loadChannelTraces_eq] at ht
  simp only [List.mem_flatMap, List.mem_filterMap] at ht
  obtain ⟨rc, _, st, _, hmap⟩ := ht
  cases hf : trc (tracepath datadir st rc) with
  | none => rw [hf] at hmap; simp at hmap
  | some raw =>
    rw [hf] at hmap
    refine ⟨raw, tracepath datadir st rc, hf, ?_⟩
    rw [← Option.some_inj.mp hmap]
    show (raw.ydata.map (fun y => y * m)) = raw.ydata.map (fun y => y * (1 / 1000000000))
    norm_num [m]

theorem c9_amplitude_scale_witness :
    load_data_traces sampleTrcAll "" [sampleSt1] ["Z"] = Except.ok ([⟨[2 * m, 3 * m]⟩], []) ∧
    (∀ t ∈ (([⟨[2 * m, 3 * m]⟩], ([] : List String)) : List SeisTrace × List String).1,
      ∃ raw path, sampleTrcAll path = some raw ∧
        t.ydata = raw.ydata.map (fun y => y * (1 / 1000000000))) :=
  ⟨rfl, c9_amplitude_scale sampleTrcAll "" [sampleSt1] ["Z"] ([⟨[2 * m, 3 * m]⟩], []) rfl⟩

end Beat
